import Mathlib

/-!
Verification of the session-lifecycle and response-normalization layer of the
bedrock-agentcore TypeScript SDK (code-interpreter and browser client families).

The JavaScript runtime values consumed by the response normalizer are modelled
by the inductive `JsVal`; operations that can throw a `TypeError` in JavaScript
(property access on null/undefined, iterating a non-iterable) are modelled in
the `Except JsError` monad.  The clients are modelled as explicit state-passing
functions over a session slot, with transport outcomes supplied by oracles and
a trace of issued remote calls.
-/

set_option maxHeartbeats 1000000

/-- A JavaScript runtime value, as inspected by the response normalizer. -/
inductive JsVal where
  | str (s : String)
  | num (n : Int)
  | bool (b : Bool)
  | null
  | undefined
  | arr (items : List JsVal)
  | obj (fields : List (String × JsVal))
deriving Repr

/-- A thrown JavaScript value: either an `Error` instance carrying a message,
or an arbitrary non-`Error` thrown value. -/
inductive JsError where
  | errorObj (message : String)
  | thrownValue (v : JsVal)
deriving Repr

/-- `error instanceof Error ? error.message : fallback`. -/
def errMessageOr (e : JsError) (fallback : String) : String :=
  match e with
  | .errorObj m => m
  | .thrownValue _ => fallback

/-- Is the value `null` or `undefined` (property access on it throws)? -/
def JsVal.isNullish : JsVal → Bool
  | .null => true
  | .undefined => true
  | _ => false

/-- Is the value a string? -/
def JsVal.isStr : JsVal → Bool
  | .str _ => true
  | _ => false

/-- JavaScript truthiness. -/
def truthy : JsVal → Bool
  | .str s => decide (s ≠ "")
  | .num n => decide (n ≠ 0)
  | .bool b => b
  | .null => false
  | .undefined => false
  | .arr _ => true
  | .obj _ => true

/-- Field lookup in an object literal; absent fields read as `undefined`. -/
def lookupField (fields : List (String × JsVal)) (name : String) : JsVal :=
  match fields with
  | [] => .undefined
  | (k, v) :: rest => if k = name then v else lookupField rest name

/-- Plain JavaScript property access `v.name`: throws a `TypeError` when `v`
is null/undefined, reads `undefined` from non-object values. -/
def getField (v : JsVal) (name : String) : Except JsError JsVal :=
  match v with
  | .null => .error (.errorObj ("Cannot read properties of null (reading " ++ name ++ ")"))
  | .undefined => .error (.errorObj ("Cannot read properties of undefined (reading " ++ name ++ ")"))
  | .obj fields => .ok (lookupField fields name)
  | _ => .ok .undefined

/-- Optional-chaining access `v?.name`: never throws. -/
def optField (v : JsVal) (name : String) : JsVal :=
  match v with
  | .obj fields => lookupField fields name
  | _ => .undefined

/-- Strict equality of a value against a string literal (`v === 's'`). -/
def strEq (v : JsVal) (s : String) : Bool :=
  match v with
  | .str t => t = s
  | _ => false

/-- Join a list of strings with a separator (`Array.prototype.join` on strings). -/
def joinStr (sep : String) : List String → String
  | [] => ""
  | [x] => x
  | x :: xs => x ++ sep ++ joinStr sep xs

/-- JSON string escaping for one character. -/
def quoteChar (c : Char) : String :=
  if c = '"' then "\\\""
  else if c = '\\' then "\\\\"
  else if c = '\n' then "\\n"
  else if c = '\r' then "\\r"
  else if c = '\t' then "\\t"
  else String.singleton c

/-- JSON string literal rendering. -/
def quoteStr (s : String) : String :=
  "\"" ++ String.join (s.toList.map quoteChar) ++ "\""

mutual

/-- `JSON.stringify`: `none` models the JavaScript result `undefined`
(stringifying `undefined` itself). -/
def jsonStringify : JsVal → Option String
  | JsVal.str s => some (quoteStr s)
  | JsVal.num n => some (toString n)
  | JsVal.bool b => some (if b then "true" else "false")
  | JsVal.null => some "null"
  | JsVal.undefined => none
  | JsVal.arr items => some ("[" ++ joinStr "," (jsonStringifyList items) ++ "]")
  | JsVal.obj fields => some ("\x7b" ++ joinStr "," (jsonStringifyFields fields) ++ "\x7d")

/-- Array elements: `undefined` entries render as `null`. -/
def jsonStringifyList : List JsVal → List String
  | [] => []
  | v :: vs => (jsonStringify v).getD "null" :: jsonStringifyList vs

/-- Object entries: fields whose value stringifies to `undefined` are dropped. -/
def jsonStringifyFields : List (String × JsVal) → List String
  | [] => []
  | (k, v) :: fs =>
    match jsonStringify v with
    | none => jsonStringifyFields fs
    | some s => (quoteStr k ++ ":" ++ s) :: jsonStringifyFields fs

end

mutual

/-- JavaScript `String(v)` conversion as used by template literals and
`Array.prototype.join` on non-nullish elements. -/
def jsToString : JsVal → String
  | JsVal.str s => s
  | JsVal.num n => toString n
  | JsVal.bool b => if b then "true" else "false"
  | JsVal.null => "null"
  | JsVal.undefined => "undefined"
  | JsVal.arr items => joinStr "," (jsToStringList items)
  | JsVal.obj _ => "[object Object]"

/-- Array elements under `toString`: null/undefined render as the empty string. -/
def jsToStringList : List JsVal → List String
  | [] => []
  | v :: vs =>
    (match v with
     | JsVal.null => ""
     | JsVal.undefined => ""
     | x => jsToString x) :: jsToStringList vs

end

/-- `JSON.stringify(v)` used as an expression value: a string, or `undefined`. -/
def stringifyToVal (v : JsVal) : JsVal :=
  match jsonStringify v with
  | some s => .str s
  | none => .undefined

/-- `parts.join('\n')` where pushed parts may be arbitrary runtime values:
null/undefined elements render as the empty string. -/
def joinParts (parts : List JsVal) : String :=
  joinStr "\n" (parts.map fun v =>
    match v with
    | JsVal.null => ""
    | JsVal.undefined => ""
    | x => jsToString x)

/-- One iteration of `CodeInterpreter._extractFromContentArray`: the value
pushed onto `parts` for one content item (text / resource / resource_link /
unknown fallback), or the `TypeError` thrown by `item.type` on a nullish item. -/
def extractItem (item : JsVal) : Except JsError JsVal := do
  let ty ← getField item "type"
  if strEq ty "text" then
    getField item "text"
  else if strEq ty "resource" then do
    let res ← getField item "resource"
    if truthy res then do
      let rtext ← getField res "text"
      if truthy rtext then
        pure rtext
      else
        pure (stringifyToVal res)
    else
      pure (stringifyToVal item)
  else if strEq ty "resource_link" then do
    let nm ← getField item "name"
    let desc ← getField item "description"
    let mt ← getField item "mimeType"
    let uri ← getField item "uri"
    let meta := joinStr " - " (([nm, desc, mt].filter fun v => truthy v).map jsToString)
    pure (.str (meta ++ " (" ++ jsToString uri ++ ")"))
  else
    pure (stringifyToVal item)

/-- The `for (const item of content)` loop of `_extractFromContentArray`:
collects the pushed parts in order, aborting at the first thrown error. -/
def extractParts : List JsVal → Except JsError (List JsVal)
  | [] => .ok []
  | item :: rest => do
    let p ← extractItem item
    let ps ← extractParts rest
    pure (p :: ps)

/-- `CodeInterpreter._extractFromContentArray`: map `extractItem` over the
content array and join the parts with newlines. -/
def extractFromContentArray (content : List JsVal) : Except JsError String := do
  let parts ← extractParts content
  pure (joinParts parts)

/-- Shared content dispatch of `_parseInvokeResponse`: array / string /
JSON-stringify fallback, in the source's test order. -/
def normalizeContent (content : JsVal) : Except JsError JsVal :=
  match content with
  | .arr items => (extractFromContentArray items).map JsVal.str
  | .str s => .ok (.str s)
  | c => .ok (stringifyToVal c)

/-- One streamed event of `_parseInvokeResponse`: content (if truthy)
overwrites the accumulator, then a truthy `event.error` replaces the whole
accumulator with `event.error.message || 'Unknown error'`. -/
def processEvent (contentStr : JsVal) (event : JsVal) : Except JsError JsVal := do
  let res ← getField event "result"
  let content := optField res "content"
  let acc ←
    if truthy content then
      normalizeContent content
    else
      pure contentStr
  let err ← getField event "error"
  if truthy err then do
    let msg ← getField err "message"
    pure (if truthy msg then msg else JsVal.str "Unknown error")
  else
    pure acc

/-- The `for await (const event of response.stream)` loop: left fold of
`processEvent` over the streamed events. -/
def processEvents (acc : JsVal) : List JsVal → Except JsError JsVal
  | [] => .ok acc
  | ev :: rest => do
    let acc1 ← processEvent acc ev
    processEvents acc1 rest

/-- `CodeInterpreter._parseInvokeResponse`: folds streamed events starting
from the empty string, or reads `response.result?.content` once. -/
def parseInvokeResponse (response : JsVal) : Except JsError JsVal := do
  let stream ← getField response "stream"
  if truthy stream then
    match stream with
    | .arr events => processEvents (JsVal.str "") events
    | _ => .error (.errorObj "response.stream is not async iterable")
  else
    let content := optField (optField response "result") "content"
    if truthy content then
      normalizeContent content
    else
      pure (JsVal.str "")

/-! ## Client data model and remote-call tracing -/

/-- The in-memory session record stored in a client's single session slot. -/
structure SessionInfo where
  sessionName : String
  sessionId : String
  createdAt : Nat
  description : Option String
deriving Repr, DecidableEq

/-- Optional parameters of `startSession` (code-interpreter family). -/
structure StartSessionParams where
  sessionName : Option String
  description : Option String
  timeout : Option Nat
deriving Repr

/-- Remote calls issued through the AWS SDK client or the Playwright page,
recorded as a trace by the embedded operations. -/
inductive RemoteCall where
  | startInterpreterSession (name : String) (timeoutSeconds : Nat)
  | stopInterpreterSession (sessionId : String)
  | invokeInterpreter (opName : String) (args : JsVal)
  | startBrowserSession (name : String) (timeoutSeconds : Nat)
  | stopBrowserSession (sessionId : String)
  | getBrowserSession (browserId : String) (sessionId : String)
  | updateBrowserStreamCall (browserId : String) (sessionId : String)
  | connectOverCDP
  | pageOp (opName : String)
deriving Repr

/-- Response of the remote create-session call (`sessionId`, `createdAt`). -/
structure StartResponse where
  sessionId : String
  createdAt : Nat
deriving Repr

/-- Outcomes of the transport (`this._client.send`) for each command kind of
the code-interpreter client: the oracle fed into one operation call. -/
structure Transport where
  startResult : Except JsError StartResponse
  stopResult : Except JsError Unit
  invokeResult : Except JsError JsVal
deriving Repr

namespace CodeInterpreter

/-- Modelled from the spec: the default session name constant of the
code-interpreter `types.ts` (not present under src/). Its concrete value is
immaterial to every claim. -/
def DEFAULT_SESSION_NAME : String := "default"

/-- Modelled from the spec: the default session timeout constant (one hour). -/
def DEFAULT_TIMEOUT : Nat := 3600

/-- The mutable state of one `CodeInterpreter` instance: its session slot. -/
structure State where
  session : Option SessionInfo
deriving Repr, DecidableEq

/-- `CodeInterpreter.startSession`: guarded by the already-active check, then
one remote create-session call; the slot is written only after that call
resolves. -/
def startSession (t : Transport) (st : State) (params : Option StartSessionParams) :
    Except JsError SessionInfo × State × List RemoteCall :=
  match st.session with
  | some _ => (.error (.errorObj "Session already active. Call stopSession() first."), st, [])
  | none =>
    let sessionName := (params.bind (·.sessionName)).getD DEFAULT_SESSION_NAME
    let timeoutSeconds := (params.bind (·.timeout)).getD DEFAULT_TIMEOUT
    match t.startResult with
    | .error e => (.error e, st, [.startInterpreterSession sessionName timeoutSeconds])
    | .ok resp =>
      let info : SessionInfo :=
        ⟨sessionName, resp.sessionId, resp.createdAt, params.bind (·.description)⟩
      (.ok info, ⟨some info⟩, [.startInterpreterSession sessionName timeoutSeconds])

/-- `CodeInterpreter.stopSession`: returns immediately when no session is
active; otherwise one remote stop call, clearing the slot only on success. -/
def stopSession (t : Transport) (st : State) :
    Except JsError Unit × State × List RemoteCall :=
  match st.session with
  | none => (.ok (), st, [])
  | some s =>
    match t.stopResult with
    | .error e => (.error e, st, [.stopInterpreterSession s.sessionId])
    | .ok _ => (.ok (), ⟨none⟩, [.stopInterpreterSession s.sessionId])

/-- The `try` body shared by the six tier-1 operations: one invoke call, then
response normalization; any throw is rendered as an `Error: <message>` string
(the `instanceof Error` test picking the message or the per-op fallback). -/
def invokeBody (t : Transport) (st : State) (opName : String) (args : JsVal)
    (fallbackMsg : String) : Except JsError JsVal × State × List RemoteCall :=
  match t.invokeResult with
  | .error e =>
    (.ok (.str ("Error: " ++ errMessageOr e fallbackMsg)), st, [.invokeInterpreter opName args])
  | .ok resp =>
    match parseInvokeResponse resp with
    | .error e =>
      (.ok (.str ("Error: " ++ errMessageOr e fallbackMsg)), st, [.invokeInterpreter opName args])
    | .ok v => (.ok v, st, [.invokeInterpreter opName args])

/-- The shared shape of the six tier-1 operations: the implicit
`await this.startSession()` (with no parameters) sits before — and outside —
the `try`/`catch` around the invoke call. -/
def invokeOp (t : Transport) (st : State) (opName : String) (args : JsVal)
    (fallbackMsg : String) : Except JsError JsVal × State × List RemoteCall :=
  match st.session with
  | none =>
    match startSession t st none with
    | (.error e, st1, calls) => (.error e, st1, calls)
    | (.ok _, st1, calls) =>
      let r := invokeBody t st1 opName args fallbackMsg
      (r.1, r.2.1, calls ++ r.2.2)
  | some _ => invokeBody t st opName args fallbackMsg

/-- Parameters of `executeCode`. -/
structure ExecuteCodeParams where
  code : String
  language : Option String
  clearContext : Option Bool
deriving Repr

/-- `CodeInterpreter.executeCode`. -/
def executeCode (t : Transport) (st : State) (p : ExecuteCodeParams) :
    Except JsError JsVal × State × List RemoteCall :=
  invokeOp t st "executeCode"
    (JsVal.obj ([("code", .str p.code), ("language", .str (p.language.getD "python"))] ++
      (match p.clearContext with
       | some b => [("clearContext", JsVal.bool b)]
       | none => [])))
    "Unknown execution error"

/-- Parameters of `executeCommand`. -/
structure ExecuteCommandParams where
  command : String
deriving Repr

/-- `CodeInterpreter.executeCommand`. -/
def executeCommand (t : Transport) (st : State) (p : ExecuteCommandParams) :
    Except JsError JsVal × State × List RemoteCall :=
  invokeOp t st "executeCommand" (JsVal.obj [("command", .str p.command)])
    "Command execution failed"

/-- Parameters of `readFiles`. -/
structure ReadFilesParams where
  paths : List String
deriving Repr

/-- `CodeInterpreter.readFiles`. -/
def readFiles (t : Transport) (st : State) (p : ReadFilesParams) :
    Except JsError JsVal × State × List RemoteCall :=
  invokeOp t st "readFiles" (JsVal.obj [("paths", .arr (p.paths.map .str))]) "Read failed"

/-- One file entry of `writeFiles`. -/
structure FileEntry where
  path : String
  content : String
deriving Repr

/-- Parameters of `writeFiles`. -/
structure WriteFilesParams where
  files : List FileEntry
deriving Repr

/-- `CodeInterpreter.writeFiles`. -/
def writeFiles (t : Transport) (st : State) (p : WriteFilesParams) :
    Except JsError JsVal × State × List RemoteCall :=
  invokeOp t st "writeFiles"
    (JsVal.obj [("content", .arr (p.files.map fun f =>
      JsVal.obj [("path", .str f.path), ("text", .str f.content)]))])
    "Write failed"

/-- Parameters of `listFiles`. -/
structure ListFilesParams where
  path : Option String
deriving Repr

/-- `CodeInterpreter.listFiles`. -/
def listFiles (t : Transport) (st : State) (p : Option ListFilesParams) :
    Except JsError JsVal × State × List RemoteCall :=
  invokeOp t st "listFiles" (JsVal.obj [("path", .str ((p.bind (·.path)).getD "."))])
    "List failed"

/-- Parameters of `removeFiles`. -/
structure RemoveFilesParams where
  paths : List String
deriving Repr

/-- `CodeInterpreter.removeFiles`. -/
def removeFiles (t : Transport) (st : State) (p : RemoveFilesParams) :
    Except JsError JsVal × State × List RemoteCall :=
  invokeOp t st "removeFiles" (JsVal.obj [("paths", .arr (p.paths.map .str))]) "Remove failed"

end CodeInterpreter

/-! ## Browser client family -/

/-- Response of the remote start-browser-session call: `createdAt` may be
absent (`response.createdAt ?? new Date()` in the source). -/
structure BrowserStartResponse where
  sessionId : String
  createdAt : Option Nat
deriving Repr

/-- Transport outcomes for the browser client commands, plus the clock value
used for `new Date()`. -/
structure BrowserTransport where
  startResult : Except JsError BrowserStartResponse
  stopResult : Except JsError Unit
  getResult : Except JsError JsVal
  updateResult : Except JsError JsVal
  now : Nat
deriving Repr

namespace Browser

/-- `DEFAULT_SESSION_NAME` of `browser/types.ts`. -/
def DEFAULT_SESSION_NAME : String := "default"

/-- `DEFAULT_TIMEOUT` of `browser/types.ts` (one hour). -/
def DEFAULT_TIMEOUT : Nat := 3600

/-- Viewport dimensions. -/
structure ViewportConfig where
  width : Nat
  height : Nat
deriving Repr

/-- Optional parameters of `Browser.startSession`. -/
structure StartParams where
  sessionName : Option String
  timeout : Option Nat
  viewport : Option ViewportConfig
deriving Repr

/-- The state of one `Browser` instance: the configured identifier (read-only
after construction) and the single session slot. -/
structure State where
  identifier : String
  session : Option SessionInfo
deriving Repr, DecidableEq

/-- `Browser.startSession`: already-active guard, one remote start call, slot
written only after the call resolves; `createdAt` defaults to the current
time when the response omits it. -/
def startSession (t : BrowserTransport) (st : State) (params : Option StartParams) :
    Except JsError SessionInfo × State × List RemoteCall :=
  match st.session with
  | some _ => (.error (.errorObj "Session already active. Call stopSession() first."), st, [])
  | none =>
    let sessionName := (params.bind (·.sessionName)).getD DEFAULT_SESSION_NAME
    let sessionTimeoutSeconds := (params.bind (·.timeout)).getD DEFAULT_TIMEOUT
    match t.startResult with
    | .error e => (.error e, st, [.startBrowserSession sessionName sessionTimeoutSeconds])
    | .ok resp =>
      let info : SessionInfo :=
        ⟨sessionName, resp.sessionId, resp.createdAt.getD t.now, none⟩
      (.ok info, ⟨st.identifier, some info⟩, [.startBrowserSession sessionName sessionTimeoutSeconds])

/-- `Browser.stopSession`: silently succeeds with no remote call when no
session is active; otherwise one remote stop call, clearing the slot only on
success. -/
def stopSession (t : BrowserTransport) (st : State) :
    Except JsError Unit × State × List RemoteCall :=
  match st.session with
  | none => (.ok (), st, [])
  | some s =>
    match t.stopResult with
    | .error e => (.error e, st, [.stopBrowserSession s.sessionId])
    | .ok _ => (.ok (), ⟨st.identifier, none⟩, [.stopBrowserSession s.sessionId])

/-- Optional parameters of `Browser.getSession`. -/
structure GetSessionParams where
  browserId : Option String
  sessionId : Option String
deriving Repr

/-- `Browser.getSession`: resolves the target ids from parameters or the
active session, raising the configuration error before any remote call when
either resolves falsy.  The response-field repackaging of the source (pure
field copying into `GetSessionResponse`) is represented by returning the raw
transport response. -/
def getSession (t : BrowserTransport) (st : State) (params : Option GetSessionParams) :
    Except JsError JsVal × List RemoteCall :=
  let browserId := (params.bind (·.browserId)).getD st.identifier
  let sessionId? := (params.bind (·.sessionId)).orElse fun _ => st.session.map (·.sessionId)
  if browserId = "" ∨ sessionId?.getD "" = "" then
    (.error (.errorObj ("Browser ID and Session ID must be provided or available from " ++
      "current session. Start a session first or provide explicit IDs.")), [])
  else
    match t.getResult with
    | .error e => (.error e, [.getBrowserSession browserId (sessionId?.getD "")])
    | .ok v => (.ok v, [.getBrowserSession browserId (sessionId?.getD "")])

/-- Parameters of `Browser.updateBrowserStream` (required in the source). -/
structure UpdateStreamParams where
  browserId : Option String
  sessionId : Option String
  streamStatus : String
deriving Repr

/-- `Browser.updateBrowserStream`: same id-resolution guard as `getSession`
before the single remote update call. -/
def updateBrowserStream (t : BrowserTransport) (st : State) (params : UpdateStreamParams) :
    Except JsError JsVal × List RemoteCall :=
  let browserId := params.browserId.getD st.identifier
  let sessionId? := params.sessionId.orElse fun _ => st.session.map (·.sessionId)
  if browserId = "" ∨ sessionId?.getD "" = "" then
    (.error (.errorObj ("Browser ID and Session ID must be provided or available from " ++
      "current session. Start a session first or provide explicit IDs.")), [])
  else
    match t.updateResult with
    | .error e => (.error e, [.updateBrowserStreamCall browserId (sessionId?.getD "")])
    | .ok v => (.ok v, [.updateBrowserStreamCall browserId (sessionId?.getD "")])

end Browser

namespace PlaywrightBrowser

/-- State of one `PlaywrightBrowser` instance: the inherited browser state
plus the nullability of the cached `_playwrightBrowser` and `_playwrightPage`
fields (`true` means non-null). -/
structure State where
  base : Browser.State
  pwConnected : Bool
  pwPage : Bool
deriving Repr, DecidableEq

/-- Outcomes of the Playwright-side collaborators: URL signing, CDP
connection, context/page discovery, and per-operation page calls. -/
structure PlaywrightOracle where
  generateUrlResult : Except JsError Unit
  connectResult : Except JsError Unit
  contextsCount : Nat
  pagesCount : Nat
  newPageResult : Except JsError Unit
  closeResult : Except JsError Unit
  gotoResult : String → Except JsError Unit
  goBackResult : String → Except JsError Unit
  goForwardResult : String → Except JsError Unit
  evaluateResult : String → Except JsError JsVal
  queryResult : String → Except JsError (Option Nat)
  elemVisibleResult : Nat → Except JsError Bool

/-- `PlaywrightBrowser._connectPlaywright`: session guard, WebSocket URL
signing, CDP connect (caching the browser object), then context/page
discovery (creating a page when none exists). -/
def connectPlaywright (o : PlaywrightOracle) (st : State) :
    Except JsError Unit × State × List RemoteCall :=
  match st.base.session with
  | none => (.error (.errorObj "No active session"), st, [])
  | some _ =>
    match o.generateUrlResult with
    | .error e => (.error e, st, [])
    | .ok _ =>
      match o.connectResult with
      | .error e => (.error e, st, [.connectOverCDP])
      | .ok _ =>
        let st1 : State := ⟨st.base, true, st.pwPage⟩
        if o.contextsCount = 0 then
          (.error (.errorObj "No browser contexts available"), st1, [.connectOverCDP])
        else if o.pagesCount = 0 then
          match o.newPageResult with
          | .error e => (.error e, st1, [.connectOverCDP, .pageOp "newPage"])
          | .ok _ => (.ok (), ⟨st.base, true, true⟩, [.connectOverCDP, .pageOp "newPage"])
        else
          (.ok (), ⟨st.base, true, true⟩, [.connectOverCDP])

/-- `PlaywrightBrowser._ensureConnected`: auto-start the session (default
parameters) when absent, then establish the Playwright connection when either
cached field is null. -/
def ensureConnected (t : BrowserTransport) (o : PlaywrightOracle) (st : State) :
    Except JsError Unit × State × List RemoteCall :=
  let step1 : Except JsError Unit × State × List RemoteCall :=
    match st.base.session with
    | none =>
      match Browser.startSession t st.base none with
      | (.error e, b1, calls) => (.error e, ⟨b1, st.pwConnected, st.pwPage⟩, calls)
      | (.ok _, b1, calls) => (.ok (), ⟨b1, st.pwConnected, st.pwPage⟩, calls)
    | some _ => (.ok (), st, [])
  match step1 with
  | (.error e, st1, calls) => (.error e, st1, calls)
  | (.ok _, st1, calls) =>
    if st1.pwConnected && st1.pwPage then
      (.ok (), st1, calls)
    else
      let r := connectPlaywright o st1
      (r.1, r.2.1, calls ++ r.2.2)

/-- Parameters of `navigate`. -/
structure NavigateParams where
  url : String
  waitUntil : Option String
  timeout : Option Nat
deriving Repr

/-- `PlaywrightBrowser.navigate`: ensure connection, then one `page.goto`. -/
def navigate (t : BrowserTransport) (o : PlaywrightOracle) (st : State) (p : NavigateParams) :
    Except JsError Unit × State × List RemoteCall :=
  match ensureConnected t o st with
  | (.error e, st1, calls) => (.error e, st1, calls)
  | (.ok _, st1, calls) =>
    match o.gotoResult p.url with
    | .error e => (.error e, st1, calls ++ [.pageOp "goto"])
    | .ok _ => (.ok (), st1, calls ++ [.pageOp "goto"])

/-- `PlaywrightBrowser.isVisible`: ensure connection, then a `try`/`catch`
around the selector lookup and visibility check that downgrades a missing
element or any thrown error to `false`. -/
def isVisible (t : BrowserTransport) (o : PlaywrightOracle) (st : State) (selector : String) :
    Except JsError Bool × State × List RemoteCall :=
  match ensureConnected t o st with
  | (.error e, st1, calls) => (.error e, st1, calls)
  | (.ok _, st1, calls) =>
    let r : Except JsError Bool :=
      match o.queryResult selector with
      | .error _ => .ok false
      | .ok none => .ok false
      | .ok (some el) =>
        match o.elemVisibleResult el with
        | .error _ => .ok false
        | .ok b => .ok b
    (r, st1, calls ++ [.pageOp "isVisible"])

/-- The three completion strategies of `back`/`forward`, in attempt order. -/
inductive NavStrategy where
  | networkidle
  | load
  | historyScript
deriving Repr, DecidableEq

/-- The nested `try`/`catch` chain of `back()`: `goBack` with `networkidle`,
on any throw `goBack` with `load`, on any throw a raw
`window.history.back()` script evaluation (whose own throw propagates).
Returns the outcome and the list of strategies attempted. -/
def backAttempts (o : PlaywrightOracle) : Except JsError Unit × List NavStrategy :=
  match o.goBackResult "networkidle" with
  | .ok _ => (.ok (), [.networkidle])
  | .error _ =>
    match o.goBackResult "load" with
    | .ok _ => (.ok (), [.networkidle, .load])
    | .error _ =>
      match o.evaluateResult "window.history.back()" with
      | .ok _ => (.ok (), [.networkidle, .load, .historyScript])
      | .error e => (.error e, [.networkidle, .load, .historyScript])

/-- The same chain for `forward()` over `goForward` and
`window.history.forward()`. -/
def forwardAttempts (o : PlaywrightOracle) : Except JsError Unit × List NavStrategy :=
  match o.goForwardResult "networkidle" with
  | .ok _ => (.ok (), [.networkidle])
  | .error _ =>
    match o.goForwardResult "load" with
    | .ok _ => (.ok (), [.networkidle, .load])
    | .error _ =>
      match o.evaluateResult "window.history.forward()" with
      | .ok _ => (.ok (), [.networkidle, .load, .historyScript])
      | .error e => (.error e, [.networkidle, .load, .historyScript])

/-- `PlaywrightBrowser.back`: ensure connection, then the fallback chain. -/
def back (t : BrowserTransport) (o : PlaywrightOracle) (st : State) :
    Except JsError Unit × State × List NavStrategy :=
  match ensureConnected t o st with
  | (.error e, st1, _) => (.error e, st1, [])
  | (.ok _, st1, _) =>
    let r := backAttempts o
    (r.1, st1, r.2)

/-- `PlaywrightBrowser.forward`: ensure connection, then the fallback chain. -/
def forward (t : BrowserTransport) (o : PlaywrightOracle) (st : State) :
    Except JsError Unit × State × List NavStrategy :=
  match ensureConnected t o st with
  | (.error e, st1, _) => (.error e, st1, [])
  | (.ok _, st1, _) =>
    let r := forwardAttempts o
    (r.1, st1, r.2)

/-- `PlaywrightBrowser.stopSession` override: close the Playwright browser in
a `try`/`catch` (on success the cached fields are nulled; a throw is only
warned about, leaving them set), then delegate to `Browser.stopSession`. -/
def stopSession (t : BrowserTransport) (o : PlaywrightOracle) (st : State) :
    Except JsError Unit × State × List RemoteCall :=
  let st1 : State :=
    if st.pwConnected then
      match o.closeResult with
      | .ok _ => ⟨st.base, false, false⟩
      | .error _ => st
    else st
  match Browser.stopSession t st1.base with
  | (.error e, b2, calls) => (.error e, ⟨b2, st1.pwConnected, st1.pwPage⟩, calls)
  | (.ok _, b2, calls) => (.ok (), ⟨b2, st1.pwConnected, st1.pwPage⟩, calls)

end PlaywrightBrowser

/-! ## Well-formedness predicates and totality helpers for the normalizer -/

/-- A content-array item on which `item.type` does not throw. -/
def itemOk (v : JsVal) : Bool := !v.isNullish

/-- A content value whose processing cannot throw: either not an array, or an
array with no nullish items. -/
def contentOk (c : JsVal) : Bool :=
  match c with
  | .arr items => items.all itemOk
  | _ => true

/-- A streamed event whose processing cannot throw and yields a string:
non-nullish, content well-formed, and any truthy error message a string. -/
def eventOk (ev : JsVal) : Bool :=
  !ev.isNullish &&
  contentOk (optField (optField ev "result") "content") &&
  (let err := optField ev "error"
   !truthy err ||
     (let m := optField err "message"
      !truthy m || m.isStr))

/-- A response envelope on which the normalizer is guaranteed to return a
string: non-nullish, a truthy stream is an array of well-formed events, and a
non-streamed content value is well-formed. -/
def envelopeOk (resp : JsVal) : Bool :=
  !resp.isNullish &&
  (let stream := optField resp "stream"
   if truthy stream then
     match stream with
     | .arr events => events.all eventOk
     | _ => false
   else
     contentOk (optField (optField resp "result") "content"))

/-- Did the normalizer resolve with a string value? -/
def isOkStr : Except JsError JsVal → Bool
  | .ok (.str _) => true
  | _ => false

theorem truthy_not_nullish (v : JsVal) (h : truthy v = true) : v.isNullish = false := by
  cases v <;> simp_all [truthy, JsVal.isNullish]

theorem getField_eq_ok (v : JsVal) (name : String) (h : v.isNullish = false) :
    getField v name = .ok (optField v name) := by
  cases v <;> simp_all [getField, optField, JsVal.isNullish]

theorem jsonStringify_isSome (v : JsVal) (h : v ≠ .undefined) : (jsonStringify v).isSome := by
  cases v <;> simp_all [jsonStringify]

theorem stringifyToVal_isStr (v : JsVal) (h : v ≠ .undefined) : (stringifyToVal v).isStr = true := by
  have := jsonStringify_isSome v h
  unfold stringifyToVal
  cases hj : jsonStringify v with
  | none => rw [hj] at this; simp at this
  | some s => simp [JsVal.isStr]

theorem extractItem_ok (item : JsVal) (h : item.isNullish = false) :
    ∃ v, extractItem item = .ok v := by
  have hne : item ≠ .undefined := by cases item <;> simp_all [JsVal.isNullish]
  unfold extractItem
  rw [getField_eq_ok item "type" h]
  simp only [bind, Except.bind]
  split
  · rw [getField_eq_ok item "text" h]
    exact ⟨_, rfl⟩
  · split
    · rw [getField_eq_ok item "resource" h]
      simp only [Except.bind]
      split
      · rename_i htr
        rw [getField_eq_ok _ "text" (truthy_not_nullish _ htr)]
        simp only [Except.bind]
        split <;> exact ⟨_, rfl⟩
      · exact ⟨_, rfl⟩
    · split
      · rw [getField_eq_ok item "name" h, getField_eq_ok item "description" h,
          getField_eq_ok item "mimeType" h, getField_eq_ok item "uri" h]
        simp only [Except.bind]
        exact ⟨_, rfl⟩
      · exact ⟨_, rfl⟩

theorem exceptBind_ok {α β ε : Type} (a : α) (f : α → Except ε β) :
    (Except.ok a : Except ε α) >>= f = f a := rfl

theorem exceptBind_err {α β ε : Type} (e : ε) (f : α → Except ε β) :
    (Except.error e : Except ε α) >>= f = Except.error e := rfl

theorem exceptPure {α ε : Type} (a : α) : (pure a : Except ε α) = Except.ok a := rfl

theorem extractParts_ok (items : List JsVal) (h : items.all itemOk = true) :
    ∃ parts, extractParts items = .ok parts := by
  induction items with
  | nil => exact ⟨[], rfl⟩
  | cons item rest ih =>
    simp only [List.all_cons, Bool.and_eq_true] at h
    obtain ⟨v, hv⟩ := extractItem_ok item (by simpa [itemOk] using h.1)
    obtain ⟨ps, hps⟩ := ih h.2
    refine ⟨v :: ps, ?_⟩
    simp only [extractParts, hv, hps, exceptBind_ok, exceptPure]

theorem extractFromContentArray_ok (items : List JsVal) (h : items.all itemOk = true) :
    ∃ s, extractFromContentArray items = .ok s := by
  obtain ⟨ps, hps⟩ := extractParts_ok items h
  refine ⟨joinParts ps, ?_⟩
  simp only [extractFromContentArray, hps, exceptBind_ok, exceptPure]

theorem normalizeContent_ok (content : JsVal) (hc : contentOk content = true)
    (ht : truthy content = true) : isOkStr (normalizeContent content) = true := by
  cases content with
  | arr items =>
    obtain ⟨s, hs⟩ := extractFromContentArray_ok items (by simpa [contentOk] using hc)
    simp [normalizeContent, hs, isOkStr, Except.map]
  | str s => simp [normalizeContent, isOkStr]
  | num n =>
    simp only [normalizeContent]
    have := stringifyToVal_isStr (.num n) (by simp)
    cases h : stringifyToVal (.num n) <;> simp_all [isOkStr, JsVal.isStr]
  | bool b =>
    simp only [normalizeContent]
    have := stringifyToVal_isStr (.bool b) (by simp)
    cases h : stringifyToVal (.bool b) <;> simp_all [isOkStr, JsVal.isStr]
  | null => simp [truthy] at ht
  | undefined => simp [truthy] at ht
  | obj fields =>
    simp only [normalizeContent]
    have := stringifyToVal_isStr (.obj fields) (by simp)
    cases h : stringifyToVal (.obj fields) <;> simp_all [isOkStr, JsVal.isStr]

theorem errTail_ok (ev acc1 : JsVal) (hnn : ev.isNullish = false)
    (herr : truthy (optField ev "error") = false ∨
            truthy (optField (optField ev "error") "message") = false ∨
            (optField (optField ev "error") "message").isStr = true)
    (h1 : acc1.isStr = true) :
    ∃ s, (getField ev "error" >>= fun err =>
        if truthy err = true then
          getField err "message" >>= fun msg =>
            pure (if truthy msg = true then msg else JsVal.str "Unknown error")
        else (pure acc1 : Except JsError JsVal)) = .ok (.str s) := by
  rw [getField_eq_ok ev "error" hnn, exceptBind_ok]
  by_cases het : truthy (optField ev "error") = true
  · rw [het]
    simp only [if_true]
    rw [getField_eq_ok _ "message" (truthy_not_nullish _ het), exceptBind_ok]
    by_cases hmt : truthy (optField (optField ev "error") "message") = true
    · have h0 : (optField (optField ev "error") "message").isStr = true := by
        rcases herr with h0 | h0 | h0
        · rw [h0] at het; simp at het
        · rw [h0] at hmt; simp at hmt
        · exact h0
      cases hm : optField (optField ev "error") "message" with
      | str ms =>
        rw [hm] at hmt
        exact ⟨ms, by simp [hmt, exceptPure]⟩
      | num n => rw [hm] at h0; simp [JsVal.isStr] at h0
      | bool b => rw [hm] at h0; simp [JsVal.isStr] at h0
      | null => rw [hm] at h0; simp [JsVal.isStr] at h0
      | undefined => rw [hm] at h0; simp [JsVal.isStr] at h0
      | arr xs => rw [hm] at h0; simp [JsVal.isStr] at h0
      | obj fs => rw [hm] at h0; simp [JsVal.isStr] at h0
    · simp only [Bool.not_eq_true] at hmt
      rw [hmt]
      exact ⟨"Unknown error", by simp [exceptPure]⟩
  · simp only [Bool.not_eq_true] at het
    rw [het]
    simp only [Bool.false_eq_true, if_false]
    cases acc1 with
    | str s => exact ⟨s, by simp [exceptPure]⟩
    | num n => simp [JsVal.isStr] at h1
    | bool b => simp [JsVal.isStr] at h1
    | null => simp [JsVal.isStr] at h1
    | undefined => simp [JsVal.isStr] at h1
    | arr xs => simp [JsVal.isStr] at h1
    | obj fs => simp [JsVal.isStr] at h1

theorem processEvent_ok (acc ev : JsVal) (hacc : acc.isStr = true) (hev : eventOk ev = true) :
    ∃ s, processEvent acc ev = .ok (.str s) := by
  simp only [eventOk, Bool.and_eq_true, Bool.not_eq_true', Bool.or_eq_true] at hev
  obtain ⟨⟨hnn, hc⟩, herr⟩ := hev
  unfold processEvent
  rw [getField_eq_ok ev "result" hnn, exceptBind_ok]
  by_cases htc : truthy (optField (optField ev "result") "content") = true
  · simp only [htc, if_true]
    have hok := normalizeContent_ok _ hc htc
    cases hn : normalizeContent (optField (optField ev "result") "content") with
    | error e => rw [hn] at hok; simp [isOkStr] at hok
    | ok v =>
      rw [hn] at hok
      cases v with
      | str s => rw [exceptBind_ok]; exact errTail_ok ev (.str s) hnn herr (by simp [JsVal.isStr])
      | num n => simp [isOkStr] at hok
      | bool b => simp [isOkStr] at hok
      | null => simp [isOkStr] at hok
      | undefined => simp [isOkStr] at hok
      | arr xs => simp [isOkStr] at hok
      | obj fs => simp [isOkStr] at hok
  · simp only [Bool.not_eq_true] at htc
    simp only [htc, Bool.false_eq_true, if_false, exceptPure, exceptBind_ok]
    exact errTail_ok ev acc hnn herr hacc

theorem processEvents_ok (events : List JsVal) (acc : JsVal) (hacc : acc.isStr = true)
    (h : events.all eventOk = true) : ∃ s, processEvents acc events = .ok (.str s) := by
  induction events generalizing acc with
  | nil =>
    cases acc with
    | str s => exact ⟨s, rfl⟩
    | num n => simp [JsVal.isStr] at hacc
    | bool b => simp [JsVal.isStr] at hacc
    | null => simp [JsVal.isStr] at hacc
    | undefined => simp [JsVal.isStr] at hacc
    | arr xs => simp [JsVal.isStr] at hacc
    | obj fs => simp [JsVal.isStr] at hacc
  | cons ev rest ih =>
    simp only [List.all_cons, Bool.and_eq_true] at h
    obtain ⟨s1, hs1⟩ := processEvent_ok acc ev hacc h.1
    obtain ⟨s2, hs2⟩ := ih (.str s1) (by simp [JsVal.isStr]) h.2
    refine ⟨s2, ?_⟩
    simp only [processEvents, hs1, exceptBind_ok, hs2]

theorem parseInvokeResponse_ok (response : JsVal) (h : envelopeOk response = true) :
    isOkStr (parseInvokeResponse response) = true := by
  simp only [envelopeOk, Bool.and_eq_true, Bool.not_eq_true'] at h
  obtain ⟨hnn, hrest⟩ := h
  unfold parseInvokeResponse
  rw [getField_eq_ok response "stream" hnn, exceptBind_ok]
  by_cases hts : truthy (optField response "stream") = true
  · rw [hts] at hrest ⊢
    simp only [if_true] at hrest ⊢
    cases hs : optField response "stream" with
    | arr events =>
      rw [hs] at hrest
      obtain ⟨s, hok⟩ := processEvents_ok events (.str "") (by simp [JsVal.isStr]) hrest
      simp [hok, isOkStr]
    | str s => rw [hs] at hrest; simp at hrest
    | num n => rw [hs] at hrest; simp at hrest
    | bool b => rw [hs] at hrest; simp at hrest
    | null => rw [hs] at hrest; simp at hrest
    | undefined => rw [hs] at hrest; simp at hrest
    | obj fs => rw [hs] at hrest; simp at hrest
  · simp only [Bool.not_eq_true] at hts
    rw [hts] at hrest ⊢
    simp only [Bool.false_eq_true, if_false] at hrest ⊢
    by_cases htc : truthy (optField (optField response "result") "content") = true
    · rw [htc]
      simp only [if_true]
      exact normalizeContent_ok _ hrest htc
    · simp only [Bool.not_eq_true] at htc
      rw [htc]
      simp [isOkStr, exceptPure]

/-! ## Claim C2: normalizer totality -/

/-- C2 counterexample: the normalizer, as universally stated over malformed
shapes, can throw or return a non-string.  (1) a content array containing a
`null` item throws a `TypeError` from `item.type`; (2) a streamed error
envelope whose `message` is the number `42` makes the normalizer return the
number `42`, not a string; (3) a `null` response throws on `response.stream`;
(4) a truthy non-iterable `stream` field throws on `for await`. -/
theorem claim2_ctex :
    parseInvokeResponse (JsVal.obj [("result", JsVal.obj [("content", JsVal.arr [JsVal.null])])]) =
      .error (.errorObj "Cannot read properties of null (reading type)") ∧
    parseInvokeResponse
      (JsVal.obj [("stream", JsVal.arr [JsVal.obj [("error", JsVal.obj [("message", JsVal.num 42)])]])]) =
      .ok (JsVal.num 42) ∧
    JsVal.isStr (JsVal.num 42) = false ∧
    parseInvokeResponse JsVal.null =
      .error (.errorObj "Cannot read properties of null (reading stream)") ∧
    parseInvokeResponse (JsVal.obj [("stream", JsVal.num 5)]) =
      .error (.errorObj "response.stream is not async iterable") :=
  ⟨rfl, rfl, rfl, rfl, rfl⟩

/-- C2 (amended): for every response envelope that is not null/undefined,
whose truthy `stream` is a sequence of non-nullish events, whose content
arrays contain no null/undefined items, and whose truthy error messages are
strings (`envelopeOk`), the response normalizer returns a string and never
throws. -/
theorem claim2_normalizer_total (response : JsVal) (h : envelopeOk response = true) :
    isOkStr (parseInvokeResponse response) = true :=
  parseInvokeResponse_ok response h

/-- Witness for C2: a well-formed envelope with a mixed content array. -/
theorem claim2_witness :
    envelopeOk (JsVal.obj [("result", JsVal.obj [("content", JsVal.arr
      [JsVal.obj [("type", JsVal.str "text"), ("text", JsVal.str "hi")],
       JsVal.obj [("type", JsVal.str "blob")]])])]) = true ∧
    isOkStr (parseInvokeResponse (JsVal.obj [("result", JsVal.obj [("content", JsVal.arr
      [JsVal.obj [("type", JsVal.str "text"), ("text", JsVal.str "hi")],
       JsVal.obj [("type", JsVal.str "blob")]])])])) = true :=
  ⟨rfl, claim2_normalizer_total _ rfl⟩

/-! ## Claim C3: streamed envelopes, last write wins, error overrides -/

/-- A streamed event carrying plain text content. -/
def mkTextEvent (c : String) : JsVal :=
  .obj [("result", .obj [("content", .str c)])]

/-- A streamed event carrying an explicit error object. -/
def mkErrorEvent (m : String) : JsVal :=
  .obj [("error", .obj [("message", .str m)])]

/-- A response whose `stream` field is the given sequence of events. -/
def mkStreamResponse (events : List JsVal) : JsVal :=
  .obj [("stream", .arr events)]

theorem normalizeContent_isOk (c : JsVal) (hc : contentOk c = true) :
    ∃ v, normalizeContent c = .ok v := by
  cases c with
  | arr items =>
    obtain ⟨s, hs⟩ := extractFromContentArray_ok items (by simpa [contentOk] using hc)
    exact ⟨.str s, by simp [normalizeContent, hs, Except.map]⟩
  | str s => exact ⟨.str s, rfl⟩
  | num n => exact ⟨_, rfl⟩
  | bool b => exact ⟨_, rfl⟩
  | null => exact ⟨_, rfl⟩
  | undefined => exact ⟨_, rfl⟩
  | obj fs => exact ⟨_, rfl⟩

theorem processEvents_append (xs ys : List JsVal) (acc : JsVal) :
    processEvents acc (xs ++ ys) =
      (processEvents acc xs) >>= fun b => processEvents b ys := by
  induction xs generalizing acc with
  | nil => simp [processEvents, exceptBind_ok, exceptPure]
  | cons x rest ih =>
    simp only [List.cons_append, processEvents]
    cases processEvent acc x with
    | error e => simp [exceptBind_err]
    | ok b => rw [exceptBind_ok, exceptBind_ok]; exact ih b

theorem processEvent_text (acc : JsVal) (c : String) (hc : c ≠ "") :
    processEvent acc (mkTextEvent c) = .ok (.str c) := by
  simp [processEvent, mkTextEvent, getField, optField, lookupField, truthy, hc,
    normalizeContent, exceptBind_ok, exceptPure]

/-- C3: (i) an event with truthy content makes `processEvent` independent of
the previously accumulated value (last write wins, no concatenation);
(ii) an event with an explicit error object whose truthy message is the
string `m` makes `m` the entire result, overriding the accumulator;
(iii) a truthy error object with no truthy message yields the generic
fallback string; (iv) appending a text event to any successfully processed
stream makes that text the whole result; (v) concretely, a stream of two
distinct texts followed by an error envelope normalizes to the error's
message. -/
theorem claim3_last_write_wins :
    (∀ (ev acc acc2 : JsVal),
       truthy (optField (optField ev "result") "content") = true →
       processEvent acc ev = processEvent acc2 ev) ∧
    (∀ (acc resultv errObj : JsVal) (m : String),
       contentOk (optField resultv "content") = true →
       truthy errObj = true →
       optField errObj "message" = JsVal.str m → m ≠ "" →
       processEvent acc (JsVal.obj [("result", resultv), ("error", errObj)]) = .ok (.str m)) ∧
    (∀ (acc resultv errObj : JsVal),
       contentOk (optField resultv "content") = true →
       truthy errObj = true →
       truthy (optField errObj "message") = false →
       processEvent acc (JsVal.obj [("result", resultv), ("error", errObj)]) =
         .ok (.str "Unknown error")) ∧
    (∀ (evs : List JsVal) (acc0 acc1 : JsVal) (c : String),
       processEvents acc0 evs = .ok acc1 → c ≠ "" →
       processEvents acc0 (evs ++ [mkTextEvent c]) = .ok (.str c)) ∧
    (parseInvokeResponse
      (mkStreamResponse [mkTextEvent "alpha", mkTextEvent "beta", mkErrorEvent "boom"]) =
      .ok (.str "boom")) := by
  refine ⟨?_, ?_, ?_, ?_, rfl⟩
  · intro ev acc acc2 h
    cases ev with
    | obj fs =>
      unfold processEvent
      rw [getField_eq_ok (JsVal.obj fs) "result" (by simp [JsVal.isNullish])]
      simp only [exceptBind_ok]
      have h' : truthy (optField (optField (JsVal.obj fs) "result") "content") = true := h
      simp only [h', if_true]
    | str s => simp [optField, truthy] at h
    | num n => simp [optField, truthy] at h
    | bool b => simp [optField, truthy] at h
    | null => simp [optField, truthy] at h
    | undefined => simp [optField, truthy] at h
    | arr xs => simp [optField, truthy] at h
  · intro acc resultv errObj m hc het hm hne
    obtain ⟨v, hv⟩ := normalizeContent_isOk (optField resultv "content") hc
    have e1 : getField (JsVal.obj [("result", resultv), ("error", errObj)]) "result" =
        .ok resultv := by simp [getField, lookupField]
    have e2 : getField (JsVal.obj [("result", resultv), ("error", errObj)]) "error" =
        .ok errObj := by simp [getField, lookupField]
    have e3 : getField errObj "message" = .ok (optField errObj "message") :=
      getField_eq_ok errObj "message" (truthy_not_nullish errObj het)
    unfold processEvent
    rw [e1]
    simp only [exceptBind_ok]
    by_cases htc : truthy (optField resultv "content") = true
    · simp only [htc, if_true, hv, exceptBind_ok, e2, het, e3, hm]
      simp [truthy, hne, exceptPure]
    · simp only [Bool.not_eq_true] at htc
      simp only [htc, Bool.false_eq_true, if_false, exceptPure, exceptBind_ok, e2, het,
        if_true, e3, hm]
      simp [truthy, hne, exceptPure]
  · intro acc resultv errObj hc het hmf
    obtain ⟨v, hv⟩ := normalizeContent_isOk (optField resultv "content") hc
    have e1 : getField (JsVal.obj [("result", resultv), ("error", errObj)]) "result" =
        .ok resultv := by simp [getField, lookupField]
    have e2 : getField (JsVal.obj [("result", resultv), ("error", errObj)]) "error" =
        .ok errObj := by simp [getField, lookupField]
    have e3 : getField errObj "message" = .ok (optField errObj "message") :=
      getField_eq_ok errObj "message" (truthy_not_nullish errObj het)
    unfold processEvent
    rw [e1]
    simp only [exceptBind_ok]
    by_cases htc : truthy (optField resultv "content") = true
    · simp only [htc, if_true, hv, exceptBind_ok, e2, het, e3]
      simp [hmf, exceptPure]
    · simp only [Bool.not_eq_true] at htc
      simp only [htc, Bool.false_eq_true, if_false, exceptPure, exceptBind_ok, e2, het,
        if_true, e3]
      simp [hmf, exceptPure]
  · intro evs acc0 acc1 c hok hne
    rw [processEvents_append, hok, exceptBind_ok]
    simp [processEvents, processEvent_text _ _ hne, exceptBind_ok]

/-- Witness for C3: concrete overwrite, override, fallback and append
instances obtained from the parts of `claim3_last_write_wins`. -/
theorem claim3_witness :
    processEvent (JsVal.str "zzz") (mkTextEvent "hello") =
      processEvent (JsVal.str "qqq") (mkTextEvent "hello") ∧
    processEvent (JsVal.str "partial")
      (JsVal.obj [("result", JsVal.obj []), ("error", JsVal.obj [("message", JsVal.str "bad")])]) =
      .ok (.str "bad") ∧
    processEvent (JsVal.str "partial")
      (JsVal.obj [("result", JsVal.obj []), ("error", JsVal.obj [])]) =
      .ok (.str "Unknown error") ∧
    processEvents (JsVal.str "") ([mkTextEvent "one"] ++ [mkTextEvent "two"]) =
      .ok (.str "two") :=
  ⟨claim3_last_write_wins.1 (mkTextEvent "hello") (JsVal.str "zzz") (JsVal.str "qqq") rfl,
   claim3_last_write_wins.2.1 (JsVal.str "partial") (JsVal.obj []) (JsVal.obj [("message", JsVal.str "bad")])
     "bad" rfl rfl rfl (by decide),
   claim3_last_write_wins.2.2.1 (JsVal.str "partial") (JsVal.obj []) (JsVal.obj []) rfl rfl rfl,
   claim3_last_write_wins.2.2.2.1 [mkTextEvent "one"] (JsVal.str "") (JsVal.str "one") "two"
     rfl (by decide)⟩

/-! ## Claim C1: tier-1 operations never reject -/

theorem invokeBody_fst_indep (t : Transport) (st1 st2 : CodeInterpreter.State)
    (opName : String) (args : JsVal) (fb : String) :
    (CodeInterpreter.invokeBody t st1 opName args fb).1 =
      (CodeInterpreter.invokeBody t st2 opName args fb).1 := by
  unfold CodeInterpreter.invokeBody
  cases hi : t.invokeResult with
  | error e => rfl
  | ok resp =>
    cases hp : parseInvokeResponse resp with
    | error e => simp [hp]
    | ok v => simp [hp]

theorem invokeOp_fst_eq_body (t : Transport) (st : CodeInterpreter.State)
    (opName : String) (args : JsVal) (fb : String)
    (h : st.session.isSome = true ∨ ∃ r, t.startResult = .ok r) :
    (CodeInterpreter.invokeOp t st opName args fb).1 =
      (CodeInterpreter.invokeBody t st opName args fb).1 := by
  obtain ⟨sess⟩ := st
  cases sess with
  | some s => rfl
  | none =>
    rcases h with h | ⟨r, hr⟩
    · simp [Option.isSome] at h
    · unfold CodeInterpreter.invokeOp CodeInterpreter.startSession
      simp only [hr]
      exact invokeBody_fst_indep t _ _ opName args fb

/-- C1 counterexample: with no active session and a transport whose
create-session call throws, `executeCode` rejects with that error instead of
resolving to a string — the implicit `startSession()` sits outside the
`try`/`catch`, so the claim's unconditional "never rejects" is false. -/
theorem claim1_ctex :
    (CodeInterpreter.executeCode ⟨.error (.errorObj "boom"), .ok (), .ok (.str "")⟩
      ⟨none⟩ ⟨"print(1)", none, none⟩).1 = .error (.errorObj "boom") := rfl

/-- C1 (amended): for every tier-1 operation of the code-interpreter client
(each of `executeCode`, `executeCommand`, `readFiles`, `writeFiles`,
`listFiles`, `removeFiles` is an instance of `invokeOp` at its operation
name, arguments and fallback message), whenever a session is already active
or the implicit session creation succeeds, the call resolves (never
rejects); when the invoke transport call throws, the result is the string
`Error: <message>` built from the thrown error's message (or the per-op
fallback for a non-`Error` throw); when the invoke call succeeds and the
envelope normalizes to a string, that string is returned; when
normalization itself throws, the throw is also rendered as an
`Error: <message>` string. -/
theorem claim1_tier1_no_reject (t : Transport) (st : CodeInterpreter.State)
    (opName : String) (args : JsVal) (fb : String)
    (h : st.session.isSome = true ∨ ∃ r, t.startResult = .ok r) :
    (∃ v, (CodeInterpreter.invokeOp t st opName args fb).1 = .ok v) ∧
    (∀ e, t.invokeResult = .error e →
      (CodeInterpreter.invokeOp t st opName args fb).1 =
        .ok (.str ("Error: " ++ errMessageOr e fb))) ∧
    (∀ resp s, t.invokeResult = .ok resp → parseInvokeResponse resp = .ok (.str s) →
      (CodeInterpreter.invokeOp t st opName args fb).1 = .ok (.str s)) ∧
    (∀ resp e, t.invokeResult = .ok resp → parseInvokeResponse resp = .error e →
      (CodeInterpreter.invokeOp t st opName args fb).1 =
        .ok (.str ("Error: " ++ errMessageOr e fb))) := by
  rw [invokeOp_fst_eq_body t st opName args fb h]
  unfold CodeInterpreter.invokeBody
  refine ⟨?_, ?_, ?_, ?_⟩
  · cases hi : t.invokeResult with
    | error e => exact ⟨_, rfl⟩
    | ok resp =>
      cases hp : parseInvokeResponse resp with
      | error e => exact ⟨.str ("Error: " ++ errMessageOr e fb), by simp [hp]⟩
      | ok v => exact ⟨v, by simp [hp]⟩
  · intro e he
    rw [he]
  · intro resp s hr hp
    rw [hr]
    simp [hp]
  · intro resp e hr hp
    rw [hr]
    simp [hp]

/-- Witness for C1: a client with an active session and a transport whose
invoke call throws resolves to the rendered error string. -/
theorem claim1_witness :
    (some (⟨"default", "sid", 0, none⟩ : SessionInfo)).isSome = true ∧
    (CodeInterpreter.invokeOp ⟨.ok ⟨"sid", 0⟩, .ok (), .error (.errorObj "netfail")⟩
      ⟨some ⟨"default", "sid", 0, none⟩⟩ "executeCode" (JsVal.obj []) "Unknown execution error").1 =
      .ok (.str "Error: netfail") :=
  ⟨rfl,
   (claim1_tier1_no_reject ⟨.ok ⟨"sid", 0⟩, .ok (), .error (.errorObj "netfail")⟩
     ⟨some ⟨"default", "sid", 0, none⟩⟩ "executeCode" (JsVal.obj [])
     "Unknown execution error" (Or.inl rfl)).2.1 (.errorObj "netfail") rfl⟩

/-! ## Claim C4: session exclusivity -/

/-- C4: for both client families, a successful `startSession` records the
session in the slot, and any `startSession` issued while the slot is occupied
fails with the already-active error, with the slot unchanged and no remote
call issued; hence the second of two starts without an intervening stop
always fails. -/
theorem claim4_session_exclusivity :
    (∀ (t : Transport) (st : CodeInterpreter.State) (p : Option StartSessionParams)
       (info : SessionInfo) (st1 : CodeInterpreter.State) (calls : List RemoteCall),
       CodeInterpreter.startSession t st p = (.ok info, st1, calls) →
       st1.session = some info) ∧
    (∀ (t : Transport) (st : CodeInterpreter.State) (p : Option StartSessionParams)
       (s : SessionInfo), st.session = some s →
       CodeInterpreter.startSession t st p =
         (.error (.errorObj "Session already active. Call stopSession() first."), st, [])) ∧
    (∀ (t : BrowserTransport) (st : Browser.State) (p : Option Browser.StartParams)
       (info : SessionInfo) (st1 : Browser.State) (calls : List RemoteCall),
       Browser.startSession t st p = (.ok info, st1, calls) →
       st1.session = some info) ∧
    (∀ (t : BrowserTransport) (st : Browser.State) (p : Option Browser.StartParams)
       (s : SessionInfo), st.session = some s →
       Browser.startSession t st p =
         (.error (.errorObj "Session already active. Call stopSession() first."), st, [])) := by
  refine ⟨?_, ?_, ?_, ?_⟩
  · intro t st p info st1 calls h
    obtain ⟨sess⟩ := st
    cases sess with
    | some s => simp [CodeInterpreter.startSession] at h
    | none =>
      unfold CodeInterpreter.startSession at h
      cases hr : t.startResult with
      | error e => rw [hr] at h; simp at h
      | ok r =>
        rw [hr] at h
        simp only [Prod.mk.injEq] at h
        obtain ⟨h1, h2, -⟩ := h
        rw [← h2]
        simpa using h1
  · intro t st p s hs
    obtain ⟨sess⟩ := st
    cases sess with
    | some s2 => rfl
    | none => simp at hs
  · intro t st p info st1 calls h
    obtain ⟨idf, sess⟩ := st
    cases sess with
    | some s => simp [Browser.startSession] at h
    | none =>
      unfold Browser.startSession at h
      cases hr : t.startResult with
      | error e => rw [hr] at h; simp at h
      | ok r =>
        rw [hr] at h
        simp only [Prod.mk.injEq] at h
        obtain ⟨h1, h2, -⟩ := h
        rw [← h2]
        simpa using h1
  · intro t st p s hs
    obtain ⟨idf, sess⟩ := st
    cases sess with
    | some s2 => rfl
    | none => simp at hs

/-- Witness for C4: a concrete first start succeeds and records the session;
the immediate second start fails with the already-active error. -/
theorem claim4_witness :
    CodeInterpreter.startSession ⟨.ok ⟨"sid", 7⟩, .ok (), .ok (.str "")⟩ ⟨none⟩ none =
      (.ok ⟨"default", "sid", 7, none⟩, ⟨some ⟨"default", "sid", 7, none⟩⟩,
       [.startInterpreterSession "default" 3600]) ∧
    (⟨some ⟨"default", "sid", 7, none⟩⟩ : CodeInterpreter.State).session =
      some ⟨"default", "sid", 7, none⟩ ∧
    CodeInterpreter.startSession ⟨.ok ⟨"sid2", 9⟩, .ok (), .ok (.str "")⟩
      ⟨some ⟨"default", "sid", 7, none⟩⟩ none =
      (.error (.errorObj "Session already active. Call stopSession() first."),
       ⟨some ⟨"default", "sid", 7, none⟩⟩, []) ∧
    Browser.startSession ⟨.ok ⟨"bsid", some 3⟩, .ok (), .ok (.obj []), .ok (.obj []), 0⟩
      ⟨"aws.browser.v1", some ⟨"default", "bsid", 3, none⟩⟩ none =
      (.error (.errorObj "Session already active. Call stopSession() first."),
       ⟨"aws.browser.v1", some ⟨"default", "bsid", 3, none⟩⟩, []) :=
  ⟨rfl,
   claim4_session_exclusivity.1 ⟨.ok ⟨"sid", 7⟩, .ok (), .ok (.str "")⟩ ⟨none⟩ none
     ⟨"default", "sid", 7, none⟩ ⟨some ⟨"default", "sid", 7, none⟩⟩
     [.startInterpreterSession "default" 3600] rfl,
   claim4_session_exclusivity.2.1 ⟨.ok ⟨"sid2", 9⟩, .ok (), .ok (.str "")⟩
     ⟨some ⟨"default", "sid", 7, none⟩⟩ none ⟨"default", "sid", 7, none⟩ rfl,
   claim4_session_exclusivity.2.2.2 ⟨.ok ⟨"bsid", some 3⟩, .ok (), .ok (.obj []), .ok (.obj []), 0⟩
     ⟨"aws.browser.v1", some ⟨"default", "bsid", 3, none⟩⟩ none ⟨"default", "bsid", 3, none⟩ rfl⟩

/-! ## Claim C5: idempotent stop -/

/-- C5: for every client family, `stopSession` with no active session
resolves successfully, issues no remote call, and leaves the state unchanged
(hence it is safe to call repeatedly); for the Playwright subclass this holds
whatever the cached connection fields and the close outcome are. -/
theorem claim5_idempotent_stop :
    (∀ (t : Transport) (st : CodeInterpreter.State), st.session = none →
       CodeInterpreter.stopSession t st = (.ok (), st, [])) ∧
    (∀ (t : BrowserTransport) (st : Browser.State), st.session = none →
       Browser.stopSession t st = (.ok (), st, [])) ∧
    (∀ (t : BrowserTransport) (o : PlaywrightBrowser.PlaywrightOracle)
       (st : PlaywrightBrowser.State), st.base.session = none →
       (PlaywrightBrowser.stopSession t o st).1 = .ok () ∧
       (PlaywrightBrowser.stopSession t o st).2.2 = [] ∧
       (PlaywrightBrowser.stopSession t o st).2.1.base = st.base) := by
  refine ⟨?_, ?_, ?_⟩
  · intro t st hs
    obtain ⟨sess⟩ := st
    cases sess with
    | some s => simp at hs
    | none => rfl
  · intro t st hs
    obtain ⟨idf, sess⟩ := st
    cases sess with
    | some s => simp at hs
    | none => rfl
  · intro t o st hs
    obtain ⟨⟨idf, sess⟩, c, p⟩ := st
    cases sess with
    | some s => simp at hs
    | none =>
      cases hc : o.closeResult <;> cases c <;>
        simp [PlaywrightBrowser.stopSession, Browser.stopSession, hc]

/-- Witness for C5: stopping freshly constructed clients resolves with no
remote calls, twice in a row. -/
theorem claim5_witness :
    CodeInterpreter.stopSession ⟨.ok ⟨"sid", 0⟩, .error (.errorObj "down"), .ok (.str "")⟩
      ⟨none⟩ = (.ok (), ⟨none⟩, []) ∧
    Browser.stopSession ⟨.ok ⟨"b", none⟩, .error (.errorObj "down"), .ok (.obj []), .ok (.obj []), 0⟩
      ⟨"aws.browser.v1", none⟩ = (.ok (), ⟨"aws.browser.v1", none⟩, []) :=
  ⟨claim5_idempotent_stop.1 ⟨.ok ⟨"sid", 0⟩, .error (.errorObj "down"), .ok (.str "")⟩ ⟨none⟩ rfl,
   claim5_idempotent_stop.2.1
     ⟨.ok ⟨"b", none⟩, .error (.errorObj "down"), .ok (.obj []), .ok (.obj []), 0⟩
     ⟨"aws.browser.v1", none⟩ rfl⟩

/-! ## Claim C6: auto-provisioning -/

/-- C6: a session-requiring operation invoked with no active session performs
exactly one implicit session creation (with the default name and timeout,
i.e. `startSession()` with default parameters) followed by exactly one remote
operation call; with a session already active, no session creation occurs and
exactly one remote operation call is made.  For the code-interpreter family
this is stated for the shared tier-1 shape `invokeOp` (hence for all six
operations); for the Playwright family, for `navigate`, whose connection
establishment additionally issues the one-time CDP connect between the
session creation and the page operation. -/
theorem claim6_auto_provision :
    (∀ (t : Transport) (opName : String) (args : JsVal) (fb : String) (r : StartResponse),
       t.startResult = .ok r →
       (CodeInterpreter.invokeOp t ⟨none⟩ opName args fb).2.2 =
         [.startInterpreterSession CodeInterpreter.DEFAULT_SESSION_NAME
            CodeInterpreter.DEFAULT_TIMEOUT,
          .invokeInterpreter opName args]) ∧
    (∀ (t : Transport) (st : CodeInterpreter.State) (s : SessionInfo)
       (opName : String) (args : JsVal) (fb : String),
       st.session = some s →
       (CodeInterpreter.invokeOp t st opName args fb).2.2 = [.invokeInterpreter opName args]) ∧
    (∀ (t : BrowserTransport) (o : PlaywrightBrowser.PlaywrightOracle) (idf : String)
       (p : PlaywrightBrowser.NavigateParams) (r : BrowserStartResponse),
       t.startResult = .ok r → o.generateUrlResult = .ok () → o.connectResult = .ok () →
       o.contextsCount ≠ 0 → o.pagesCount ≠ 0 →
       (PlaywrightBrowser.navigate t o ⟨⟨idf, none⟩, false, false⟩ p).2.2 =
         [.startBrowserSession Browser.DEFAULT_SESSION_NAME Browser.DEFAULT_TIMEOUT,
          .connectOverCDP, .pageOp "goto"]) ∧
    (∀ (t : BrowserTransport) (o : PlaywrightBrowser.PlaywrightOracle)
       (st : PlaywrightBrowser.State) (s : SessionInfo) (p : PlaywrightBrowser.NavigateParams),
       st.base.session = some s → st.pwConnected = true → st.pwPage = true →
       (PlaywrightBrowser.navigate t o st p).2.2 = [.pageOp "goto"]) := by
  refine ⟨?_, ?_, ?_, ?_⟩
  · intro t opName args fb r hr
    unfold CodeInterpreter.invokeOp CodeInterpreter.startSession
    simp only [hr]
    unfold CodeInterpreter.invokeBody
    cases hi : t.invokeResult with
    | error e => simp
    | ok resp =>
      cases hp : parseInvokeResponse resp with
      | error e => simp [hp]
      | ok v => simp [hp]
  · intro t st s opName args fb hs
    obtain ⟨sess⟩ := st
    cases sess with
    | none => simp at hs
    | some s2 =>
      unfold CodeInterpreter.invokeOp CodeInterpreter.invokeBody
      cases hi : t.invokeResult with
      | error e => simp
      | ok resp =>
        cases hp : parseInvokeResponse resp with
        | error e => simp [hp]
        | ok v => simp [hp]
  · intro t o idf p r hr hu hc hctx hpg
    unfold PlaywrightBrowser.navigate PlaywrightBrowser.ensureConnected Browser.startSession
    simp only [hr]
    unfold PlaywrightBrowser.connectPlaywright
    simp only [hu, hc, hctx, if_false, hpg]
    cases hg : o.gotoResult p.url with
    | error e => simp [hctx, hpg]
    | ok u => simp [hctx, hpg]
  · intro t o st s p hs hc hp
    obtain ⟨⟨idf, sess⟩, c, pg⟩ := st
    simp only at hs hc hp
    subst hc hp
    cases sess with
    | none => simp at hs
    | some s2 =>
      unfold PlaywrightBrowser.navigate PlaywrightBrowser.ensureConnected
      simp only [Bool.and_self, if_true]
      cases hg : o.gotoResult p.url with
      | error e => simp
      | ok u => simp

/-- Witness for C6: concrete traces for a fresh and for an active client. -/
theorem claim6_witness :
    (CodeInterpreter.invokeOp ⟨.ok ⟨"sid", 1⟩, .ok (), .ok (.str "out")⟩ ⟨none⟩
      "executeCode" (JsVal.obj []) "Unknown execution error").2.2 =
      [.startInterpreterSession "default" 3600, .invokeInterpreter "executeCode" (JsVal.obj [])] ∧
    (CodeInterpreter.invokeOp ⟨.ok ⟨"sid", 1⟩, .ok (), .ok (.str "out")⟩
      ⟨some ⟨"default", "sid", 1, none⟩⟩ "listFiles" (JsVal.obj []) "List failed").2.2 =
      [.invokeInterpreter "listFiles" (JsVal.obj [])] :=
  ⟨claim6_auto_provision.1 ⟨.ok ⟨"sid", 1⟩, .ok (), .ok (.str "out")⟩
     "executeCode" (JsVal.obj []) "Unknown execution error" ⟨"sid", 1⟩ rfl,
   claim6_auto_provision.2.1 ⟨.ok ⟨"sid", 1⟩, .ok (), .ok (.str "out")⟩
     ⟨some ⟨"default", "sid", 1, none⟩⟩ ⟨"default", "sid", 1, none⟩
     "listFiles" (JsVal.obj []) "List failed" rfl⟩

/-! ## Claim C7: isVisible never throws -/

/-- C7: once the connection step succeeds, `isVisible` downgrades every error
source to `false` and never propagates: a selector lookup that finds no
element, a lookup that throws, and a visibility check that throws all
resolve to `false`, and the result is always a resolved boolean. -/
theorem claim7_isVisible_total (t : BrowserTransport)
    (o : PlaywrightBrowser.PlaywrightOracle) (st : PlaywrightBrowser.State)
    (selector : String)
    (h : (PlaywrightBrowser.ensureConnected t o st).1 = .ok ()) :
    (∀ e, o.queryResult selector = .error e →
       (PlaywrightBrowser.isVisible t o st selector).1 = .ok false) ∧
    (o.queryResult selector = .ok none →
       (PlaywrightBrowser.isVisible t o st selector).1 = .ok false) ∧
    (∀ el e, o.queryResult selector = .ok (some el) →
       o.elemVisibleResult el = .error e →
       (PlaywrightBrowser.isVisible t o st selector).1 = .ok false) ∧
    (∃ b, (PlaywrightBrowser.isVisible t o st selector).1 = .ok b) := by
  unfold PlaywrightBrowser.isVisible
  rcases hec : PlaywrightBrowser.ensureConnected t o st with ⟨r, st1, calls⟩
  rw [hec] at h
  simp only at h
  subst h
  refine ⟨?_, ?_, ?_, ?_⟩
  · intro e he
    simp [he]
  · intro he
    simp [he]
  · intro el e hq hv
    simp [hq, hv]
  · cases hq : o.queryResult selector with
    | error e => exact ⟨false, by simp [hq]⟩
    | ok oe =>
      cases oe with
      | none => exact ⟨false, by simp [hq]⟩
      | some el =>
        cases hv : o.elemVisibleResult el with
        | error e => exact ⟨false, by simp [hq, hv]⟩
        | ok b => exact ⟨b, by simp [hq, hv]⟩

/-- A concrete Playwright oracle whose connection path succeeds, whose
selector lookup throws, and whose navigation attempts are benign. -/
def happyConnectOracle : PlaywrightBrowser.PlaywrightOracle :=
  ⟨.ok (), .ok (), 1, 1, .ok (), .ok (),
   fun _ => .ok (),
   fun _ => .ok (),
   fun _ => .ok (),
   fun _ => .ok (.undefined),
   fun _ => .error (.errorObj "Execution context was destroyed"),
   fun _ => .ok true⟩

/-- Witness for C7: with a connected client whose lookup throws, `isVisible`
resolves to `false`. -/
theorem claim7_witness :
    (PlaywrightBrowser.ensureConnected
      ⟨.ok ⟨"bsid", some 2⟩, .ok (), .ok (.obj []), .ok (.obj []), 0⟩
      happyConnectOracle ⟨⟨"aws.browser.v1", some ⟨"default", "bsid", 2, none⟩⟩, true, true⟩).1 =
      .ok () ∧
    (PlaywrightBrowser.isVisible
      ⟨.ok ⟨"bsid", some 2⟩, .ok (), .ok (.obj []), .ok (.obj []), 0⟩
      happyConnectOracle ⟨⟨"aws.browser.v1", some ⟨"default", "bsid", 2, none⟩⟩, true, true⟩
      "#nope").1 = .ok false :=
  ⟨rfl,
   (claim7_isVisible_total
     ⟨.ok ⟨"bsid", some 2⟩, .ok (), .ok (.obj []), .ok (.obj []), 0⟩
     happyConnectOracle ⟨⟨"aws.browser.v1", some ⟨"default", "bsid", 2, none⟩⟩, true, true⟩
     "#nope" rfl).1 (.errorObj "Execution context was destroyed") rfl⟩

/-! ## Claim C8: back/forward fallback chain -/

/-- Is the first character list a prefix of the second? -/
def startsWithChars : List Char → List Char → Bool
  | [], _ => true
  | _ :: _, [] => false
  | a :: as, b :: bs => a = b && startsWithChars as bs

/-- Does the second character list contain the first as a contiguous run? -/
def hasSubChars (needle : List Char) : List Char → Bool
  | [] => needle.isEmpty
  | c :: rest => startsWithChars needle (c :: rest) || hasSubChars needle rest

/-- Modelled from the spec: a "timeout-class" error, recognized by a
Playwright-style `Timeout ... exceeded` message. -/
def isTimeoutClass (e : JsError) : Bool :=
  match e with
  | .errorObj m => hasSubChars "Timeout".toList m.toList
  | .thrownValue _ => false

/-- An oracle whose `networkidle` history navigation fails with a
non-timeout error while the `load` strategy succeeds. -/
def abortedNavOracle : PlaywrightBrowser.PlaywrightOracle :=
  ⟨.ok (), .ok (), 1, 1, .ok (), .ok (),
   fun _ => .ok (),
   fun w => if w = "load" then .ok () else .error (.errorObj "net::ERR_ABORTED"),
   fun w => if w = "load" then .ok () else .error (.errorObj "net::ERR_ABORTED"),
   fun _ => .ok (.undefined),
   fun _ => .ok none,
   fun _ => .ok true⟩

/-- C8 counterexample: the first strategy fails with a non-timeout-class
error (`net::ERR_ABORTED`), yet `back()` still advances to the second
strategy — the bare `catch` advances on any error, so "advancing only on a
timeout-class error" is false. -/
theorem claim8_ctex :
    abortedNavOracle.goBackResult "networkidle" = .error (.errorObj "net::ERR_ABORTED") ∧
    isTimeoutClass (.errorObj "net::ERR_ABORTED") = false ∧
    PlaywrightBrowser.backAttempts abortedNavOracle =
      (.ok (), [.networkidle, .load]) :=
  ⟨rfl, by decide, rfl⟩

/-- C8 (amended): `back()` and `forward()` attempt the three completion
strategies in order — network-idle wait, load-event wait, then direct
history manipulation via script evaluation — advancing to the next strategy
whenever the current one raises any error (the bare `catch` blocks are not
restricted to timeout-class errors). -/
theorem claim8_fallback_order (o : PlaywrightBrowser.PlaywrightOracle) :
    (o.goBackResult "networkidle" = .ok () →
       PlaywrightBrowser.backAttempts o = (.ok (), [.networkidle])) ∧
    (∀ e, o.goBackResult "networkidle" = .error e → o.goBackResult "load" = .ok () →
       PlaywrightBrowser.backAttempts o = (.ok (), [.networkidle, .load])) ∧
    (∀ e e2, o.goBackResult "networkidle" = .error e → o.goBackResult "load" = .error e2 →
       PlaywrightBrowser.backAttempts o =
         ((o.evaluateResult "window.history.back()").map (fun _ => ()),
          [.networkidle, .load, .historyScript])) ∧
    (o.goForwardResult "networkidle" = .ok () →
       PlaywrightBrowser.forwardAttempts o = (.ok (), [.networkidle])) ∧
    (∀ e, o.goForwardResult "networkidle" = .error e → o.goForwardResult "load" = .ok () →
       PlaywrightBrowser.forwardAttempts o = (.ok (), [.networkidle, .load])) ∧
    (∀ e e2, o.goForwardResult "networkidle" = .error e → o.goForwardResult "load" = .error e2 →
       PlaywrightBrowser.forwardAttempts o =
         ((o.evaluateResult "window.history.forward()").map (fun _ => ()),
          [.networkidle, .load, .historyScript])) := by
  refine ⟨?_, ?_, ?_, ?_, ?_, ?_⟩
  · intro h
    simp [PlaywrightBrowser.backAttempts, h]
  · intro e h1 h2
    simp [PlaywrightBrowser.backAttempts, h1, h2]
  · intro e e2 h1 h2
    unfold PlaywrightBrowser.backAttempts
    rw [h1, h2]
    cases he : o.evaluateResult "window.history.back()" with
    | error e3 => simp [Except.map]
    | ok v => simp [Except.map]
  · intro h
    simp [PlaywrightBrowser.forwardAttempts, h]
  · intro e h1 h2
    simp [PlaywrightBrowser.forwardAttempts, h1, h2]
  · intro e e2 h1 h2
    unfold PlaywrightBrowser.forwardAttempts
    rw [h1, h2]
    cases he : o.evaluateResult "window.history.forward()" with
    | error e3 => simp [Except.map]
    | ok v => simp [Except.map]

/-- Witness for C8: the concrete aborted-then-load oracle advances exactly
once for both `back` and `forward`. -/
theorem claim8_witness :
    PlaywrightBrowser.backAttempts abortedNavOracle = (.ok (), [.networkidle, .load]) ∧
    PlaywrightBrowser.forwardAttempts abortedNavOracle = (.ok (), [.networkidle, .load]) :=
  ⟨(claim8_fallback_order abortedNavOracle).2.1 (.errorObj "net::ERR_ABORTED") rfl rfl,
   (claim8_fallback_order abortedNavOracle).2.2.2.2.1 (.errorObj "net::ERR_ABORTED") rfl rfl⟩

/-! ## Claim C9: missing session prerequisite -/

/-- C9: calling `getSession` or `updateBrowserStream` with no active session
and no explicit session id in the parameters fails with the configuration
error naming the requirement, before any remote call is issued. -/
theorem claim9_missing_session_guard (t : BrowserTransport) (st : Browser.State)
    (gp : Option Browser.GetSessionParams) (up : Browser.UpdateStreamParams)
    (hs : st.session = none) (hg : gp.bind (·.sessionId) = none)
    (hu : up.sessionId = none) :
    Browser.getSession t st gp =
      (.error (.errorObj ("Browser ID and Session ID must be provided or available from " ++
        "current session. Start a session first or provide explicit IDs.")), []) ∧
    Browser.updateBrowserStream t st up =
      (.error (.errorObj ("Browser ID and Session ID must be provided or available from " ++
        "current session. Start a session first or provide explicit IDs.")), []) := by
  constructor
  · unfold Browser.getSession
    rw [hg, hs]
    simp [Option.orElse]
  · unfold Browser.updateBrowserStream
    rw [hu, hs]
    simp [Option.orElse]

/-- Witness for C9: a fresh browser client with parameter-free calls. -/
theorem claim9_witness :
    (⟨"aws.browser.v1", none⟩ : Browser.State).session = none ∧
    (Browser.getSession ⟨.ok ⟨"b", none⟩, .ok (), .ok (.obj []), .ok (.obj []), 0⟩
      ⟨"aws.browser.v1", none⟩ none).2 = [] ∧
    (Browser.getSession ⟨.ok ⟨"b", none⟩, .ok (), .ok (.obj []), .ok (.obj []), 0⟩
      ⟨"aws.browser.v1", none⟩ none).1 =
      .error (.errorObj ("Browser ID and Session ID must be provided or available from " ++
        "current session. Start a session first or provide explicit IDs.")) :=
  ⟨rfl,
   by rw [(claim9_missing_session_guard
       ⟨.ok ⟨"b", none⟩, .ok (), .ok (.obj []), .ok (.obj []), 0⟩
       ⟨"aws.browser.v1", none⟩ none ⟨none, none, "ENABLED"⟩ rfl rfl rfl).1],
   by rw [(claim9_missing_session_guard
       ⟨.ok ⟨"b", none⟩, .ok (), .ok (.obj []), .ok (.obj []), 0⟩
       ⟨"aws.browser.v1", none⟩ none ⟨none, none, "ENABLED"⟩ rfl rfl rfl).1]⟩

/-! ## Claim C10: session-slot atomicity on remote failure -/

/-- Did the call resolve? -/
def exceptIsOk {ε α : Type} : Except ε α → Bool
  | .ok _ => true
  | .error _ => false

/-- C10: for both client families, a failing remote call inside
`startSession` leaves the slot empty (and a later start with a succeeding
transport is not blocked), and a failing remote call inside `stopSession`
leaves the stored session record unchanged — the slot is only mutated after
the corresponding remote call resolves. -/
theorem claim10_slot_atomicity :
    (∀ (t : Transport) (st : CodeInterpreter.State) (p : Option StartSessionParams)
       (e : JsError), st.session = none → t.startResult = .error e →
       (CodeInterpreter.startSession t st p).1 = .error e ∧
       (CodeInterpreter.startSession t st p).2.1 = st) ∧
    (∀ (t : Transport) (st : CodeInterpreter.State) (s : SessionInfo) (e : JsError),
       st.session = some s → t.stopResult = .error e →
       (CodeInterpreter.stopSession t st).1 = .error e ∧
       (CodeInterpreter.stopSession t st).2.1 = st) ∧
    (∀ (t : BrowserTransport) (st : Browser.State) (p : Option Browser.StartParams)
       (e : JsError), st.session = none → t.startResult = .error e →
       (Browser.startSession t st p).1 = .error e ∧
       (Browser.startSession t st p).2.1 = st) ∧
    (∀ (t : BrowserTransport) (st : Browser.State) (s : SessionInfo) (e : JsError),
       st.session = some s → t.stopResult = .error e →
       (Browser.stopSession t st).1 = .error e ∧
       (Browser.stopSession t st).2.1 = st) ∧
    (∀ (t t2 : Transport) (st : CodeInterpreter.State) (p p2 : Option StartSessionParams)
       (e : JsError) (r : StartResponse),
       st.session = none → t.startResult = .error e → t2.startResult = .ok r →
       exceptIsOk (CodeInterpreter.startSession t2
         (CodeInterpreter.startSession t st p).2.1 p2).1 = true) := by
  refine ⟨?_, ?_, ?_, ?_, ?_⟩
  · intro t st p e hs he
    obtain ⟨sess⟩ := st
    cases sess with
    | some s => simp at hs
    | none =>
      unfold CodeInterpreter.startSession
      rw [he]
      exact ⟨rfl, rfl⟩
  · intro t st s e hs he
    obtain ⟨sess⟩ := st
    cases sess with
    | none => simp at hs
    | some s2 =>
      unfold CodeInterpreter.stopSession
      rw [he]
      exact ⟨rfl, rfl⟩
  · intro t st p e hs he
    obtain ⟨idf, sess⟩ := st
    cases sess with
    | some s => simp at hs
    | none =>
      unfold Browser.startSession
      rw [he]
      exact ⟨rfl, rfl⟩
  · intro t st s e hs he
    obtain ⟨idf, sess⟩ := st
    cases sess with
    | none => simp at hs
    | some s2 =>
      unfold Browser.stopSession
      rw [he]
      exact ⟨rfl, rfl⟩
  · intro t t2 st p p2 e r hs he hr
    obtain ⟨sess⟩ := st
    cases sess with
    | some s => simp at hs
    | none =>
      unfold CodeInterpreter.startSession
      rw [he, hr]
      rfl

/-- Witness for C10: a failing start leaves the slot empty and a retry
succeeds; a failing stop keeps the stored record. -/
theorem claim10_witness :
    (CodeInterpreter.startSession ⟨.error (.errorObj "boom"), .ok (), .ok (.str "")⟩
      ⟨none⟩ none).2.1 = (⟨none⟩ : CodeInterpreter.State) ∧
    (CodeInterpreter.stopSession ⟨.ok ⟨"sid", 0⟩, .error (.errorObj "down"), .ok (.str "")⟩
      ⟨some ⟨"default", "sid", 0, none⟩⟩).2.1 =
      (⟨some ⟨"default", "sid", 0, none⟩⟩ : CodeInterpreter.State) ∧
    exceptIsOk (CodeInterpreter.startSession ⟨.ok ⟨"sid", 4⟩, .ok (), .ok (.str "")⟩
      (CodeInterpreter.startSession ⟨.error (.errorObj "boom"), .ok (), .ok (.str "")⟩
        ⟨none⟩ none).2.1 none).1 = true :=
  ⟨(claim10_slot_atomicity.1 ⟨.error (.errorObj "boom"), .ok (), .ok (.str "")⟩
      ⟨none⟩ none (.errorObj "boom") rfl rfl).2,
   (claim10_slot_atomicity.2.1 ⟨.ok ⟨"sid", 0⟩, .error (.errorObj "down"), .ok (.str "")⟩
      ⟨some ⟨"default", "sid", 0, none⟩⟩ ⟨"default", "sid", 0, none⟩ (.errorObj "down")
      rfl rfl).2,
   claim10_slot_atomicity.2.2.2.2 ⟨.error (.errorObj "boom"), .ok (), .ok (.str "")⟩
     ⟨.ok ⟨"sid", 4⟩, .ok (), .ok (.str "")⟩ ⟨none⟩ none none (.errorObj "boom") ⟨"sid", 4⟩
     rfl rfl rfl⟩
